import Mathlib

/-!
Verification of the Logbook time-tracking application's metrics and record
store (files src/constants.py, src/utils/calculations.py, src/database.py).

Numeric modelling: Python floats are embedded as rationals (ℚ); the special
float values None / NaN accepted by calculate_efficiency are embedded by the
three-valued type PyNum.  Timestamps (datetime) are embedded as rationals
counting seconds, so that subtraction followed by total_seconds() is plain
rational subtraction.  Functions that raise ValueError are embedded in
Except String; the sqlite transaction wrapper (commit on success, rollback
on exception) is embedded by the *_run wrappers that return the old state
on error.
-/

namespace Logbook

/-! Constants from src/constants.py. -/

def EFFICIENCY_THRESHOLDS_critical : ℚ := 50

def EFFICIENCY_THRESHOLDS_warning : ℚ := 80

def EFFICIENCY_THRESHOLDS_good : ℚ := 100

def ERROR_MESSAGES_project_name_required : String := "Nama proyek wajib diisi!"

def ERROR_MESSAGES_project_name_too_short : String := "Nama proyek minimal 3 karakter!"

def ERROR_MESSAGES_project_name_too_long : String := "Nama proyek maksimal 100 karakter!"

def ERROR_MESSAGES_estimated_hours_invalid : String := "Estimasi jam harus antara 0.5 - 1000 jam!"

def ERROR_MESSAGES_end_time_before_start : String := "Waktu selesai harus setelah waktu mulai!"

def ERROR_MESSAGES_activity_already_ended : String := "Aktivitas sudah selesai sebelumnya!"

def ERROR_MESSAGES_activity_not_found : String := "Aktivitas tidak ditemukan!"

/-- Embedding of a Python numeric argument that may be None, NaN, or an
ordinary finite number (src/utils/calculations.py accepts Optional[float]). -/
inductive PyNum where
  | null : PyNum
  | nan : PyNum
  | val : ℚ → PyNum
deriving DecidableEq

/-- Embedding of calculate_efficiency (src/utils/calculations.py lines 25-77):
guards return 0.0 for None, NaN and negative logged hours, and for None, NaN
and non-positive estimated hours; otherwise (logged / estimated) * 100. -/
def calculate_efficiency (logged_hours estimated_hours : PyNum) : ℚ :=
  match logged_hours with
  | .null => 0
  | .nan => 0
  | .val l =>
    if l < 0 then 0
    else
      match estimated_hours with
      | .null => 0
      | .nan => 0
      | .val e =>
        if e ≤ 0 then 0
        else (l / e) * 100

theorem calculate_efficiency_val_val (l e : ℚ) :
    calculate_efficiency (.val l) (.val e) =
      if l < 0 then 0 else if e ≤ 0 then 0 else (l / e) * 100 := rfl

/-- The four efficiency levels returned by get_efficiency_level. -/
inductive EffLevel where
  | critical : EffLevel
  | warning : EffLevel
  | good : EffLevel
  | excellent : EffLevel
deriving DecidableEq

/-- Embedding of get_efficiency_level (src/utils/calculations.py lines 80-113),
comparing against EFFICIENCY_THRESHOLDS from src/constants.py lines 53-58. -/
def get_efficiency_level (efficiency : ℚ) : EffLevel :=
  if efficiency < EFFICIENCY_THRESHOLDS_critical then .critical
  else if efficiency < EFFICIENCY_THRESHOLDS_warning then .warning
  else if efficiency ≤ EFFICIENCY_THRESHOLDS_good then .good
  else .excellent

theorem gel_eq_critical {q : ℚ} (h : q < 50) :
    get_efficiency_level q = .critical := by
  unfold get_efficiency_level EFFICIENCY_THRESHOLDS_critical
  rw [if_pos h]

theorem gel_eq_warning {q : ℚ} (h1 : 50 ≤ q) (h2 : q < 80) :
    get_efficiency_level q = .warning := by
  unfold get_efficiency_level EFFICIENCY_THRESHOLDS_critical
    EFFICIENCY_THRESHOLDS_warning
  rw [if_neg (not_lt.mpr h1), if_pos h2]

theorem gel_eq_good {q : ℚ} (h1 : 80 ≤ q) (h2 : q ≤ 100) :
    get_efficiency_level q = .good := by
  unfold get_efficiency_level EFFICIENCY_THRESHOLDS_critical
    EFFICIENCY_THRESHOLDS_warning EFFICIENCY_THRESHOLDS_good
  rw [if_neg (not_lt.mpr (by linarith)), if_neg (not_lt.mpr h1), if_pos h2]

theorem gel_eq_excellent {q : ℚ} (h : 100 < q) :
    get_efficiency_level q = .excellent := by
  unfold get_efficiency_level EFFICIENCY_THRESHOLDS_critical
    EFFICIENCY_THRESHOLDS_warning EFFICIENCY_THRESHOLDS_good
  rw [if_neg (not_lt.mpr (by linarith)), if_neg (not_lt.mpr (by linarith)),
    if_neg (not_le.mpr h)]

/-- Embedding of calculate_progress (src/utils/calculations.py lines 195-224):
0 for non-positive estimate or negative logged hours, otherwise the ratio
clamped into [0, 1] by min(max(progress, 0.0), 1.0). -/
def calculate_progress (logged_hours estimated_hours : ℚ) : ℚ :=
  if estimated_hours ≤ 0 then 0
  else if logged_hours < 0 then 0
  else min (max (logged_hours / estimated_hours) 0) 1

/-- Embedding of calculate_duration (src/utils/calculations.py lines 165-192):
raises for end_time ≤ start_time, otherwise the difference in seconds
divided by 3600. -/
def calculate_duration (start_time end_time : ℚ) : Except String ℚ :=
  if end_time ≤ start_time then .error ERROR_MESSAGES_end_time_before_start
  else .ok ((end_time - start_time) / 3600)

/-- Claim C1: get_efficiency_level is a total, non-overlapping 4-way partition
of the rationals: value < 50 maps to critical, 50 ≤ value < 80 to warning,
80 ≤ value ≤ 100 to good (both ends inclusive) and value > 100 to excellent;
in particular level(49.99) = critical, level(50) = warning,
level(79.99) = warning, level(80) = good, level(100) = good and
level(100.01) = excellent. -/
theorem c1_efficiency_level_partition (q : ℚ) :
    ((get_efficiency_level q = .critical ↔ q < 50) ∧
     (get_efficiency_level q = .warning ↔ 50 ≤ q ∧ q < 80) ∧
     (get_efficiency_level q = .good ↔ 80 ≤ q ∧ q ≤ 100) ∧
     (get_efficiency_level q = .excellent ↔ 100 < q)) ∧
    (get_efficiency_level (49.99 : ℚ) = .critical ∧
     get_efficiency_level (50 : ℚ) = .warning ∧
     get_efficiency_level (79.99 : ℚ) = .warning ∧
     get_efficiency_level (80 : ℚ) = .good ∧
     get_efficiency_level (100 : ℚ) = .good ∧
     get_efficiency_level (100.01 : ℚ) = .excellent) := by
  constructor
  · rcases lt_or_le q 50 with h | h1
    · rw [gel_eq_critical h]
      refine ⟨iff_of_true rfl h, iff_of_false (by decide) ?_,
        iff_of_false (by decide) ?_, iff_of_false (by decide) ?_⟩
      · rintro ⟨hx, -⟩; linarith
      · rintro ⟨hx, -⟩; linarith
      · intro hx; linarith
    · rcases lt_or_le q 80 with h2 | h2
      · rw [gel_eq_warning h1 h2]
        refine ⟨iff_of_false (by decide) ?_, iff_of_true rfl ⟨h1, h2⟩,
          iff_of_false (by decide) ?_, iff_of_false (by decide) ?_⟩
        · intro hx; linarith
        · rintro ⟨hx, -⟩; linarith
        · intro hx; linarith
      · rcases le_or_lt q 100 with h3 | h3
        · rw [gel_eq_good h2 h3]
          refine ⟨iff_of_false (by decide) ?_, iff_of_false (by decide) ?_,
            iff_of_true rfl ⟨h2, h3⟩, iff_of_false (by decide) ?_⟩
          · intro hx; linarith
          · rintro ⟨-, hx⟩; linarith
          · intro hx; linarith
        · rw [gel_eq_excellent h3]
          refine ⟨iff_of_false (by decide) ?_, iff_of_false (by decide) ?_,
            iff_of_false (by decide) ?_, iff_of_true rfl h3⟩
          · intro hx; linarith
          · rintro ⟨-, hx⟩; linarith
          · rintro ⟨-, hx⟩; linarith
  · exact ⟨gel_eq_critical (by norm_num), gel_eq_warning (by norm_num) (by norm_num),
      gel_eq_warning (by norm_num) (by norm_num), gel_eq_good (by norm_num) (by norm_num),
      gel_eq_good (by norm_num) (by norm_num), gel_eq_excellent (by norm_num)⟩

/-- Claim C2: for estimated > 0 and logged ≥ 0, calculate_efficiency returns
100·logged/estimated; it returns 0 whenever logged is None, NaN or negative,
or estimated is None, NaN or non-positive (and, being total, never raises). -/
theorem c2_calculate_efficiency (l e : ℚ) (hl : 0 ≤ l) (he : 0 < e) :
    calculate_efficiency (.val l) (.val e) = 100 * l / e ∧
    (∀ x, calculate_efficiency .null x = 0) ∧
    (∀ x, calculate_efficiency .nan x = 0) ∧
    (∀ x l₂, l₂ < 0 → calculate_efficiency (.val l₂) x = 0) ∧
    (∀ x, calculate_efficiency x .null = 0) ∧
    (∀ x, calculate_efficiency x .nan = 0) ∧
    (∀ x e₂, e₂ ≤ 0 → calculate_efficiency x (.val e₂) = 0) := by
  refine ⟨?_, fun x => rfl, fun x => rfl, ?_, ?_, ?_, ?_⟩
  · rw [calculate_efficiency_val_val, if_neg (not_lt.mpr hl),
      if_neg (not_le.mpr he)]
    ring
  · intro x l₂ h
    cases x with
    | null => show (if l₂ < 0 then (0:ℚ) else 0) = 0; rw [if_pos h]
    | nan => show (if l₂ < 0 then (0:ℚ) else 0) = 0; rw [if_pos h]
    | val e₂ => rw [calculate_efficiency_val_val, if_pos h]
  · intro x
    cases x with
    | null => rfl
    | nan => rfl
    | val l₂ => show (if l₂ < 0 then (0:ℚ) else 0) = 0; rw [ite_self]
  · intro x
    cases x with
    | null => rfl
    | nan => rfl
    | val l₂ => show (if l₂ < 0 then (0:ℚ) else 0) = 0; rw [ite_self]
  · intro x e₂ h
    cases x with
    | null => rfl
    | nan => rfl
    | val l₂ =>
      rw [calculate_efficiency_val_val, if_pos h, ite_self]

/-- Witness for C2 at logged = 8, estimated = 10: efficiency is 80. -/
theorem c2_calculate_efficiency_witness :
    calculate_efficiency (.val 8) (.val 10) = 100 * 8 / 10 :=
  (c2_calculate_efficiency 8 10 (by norm_num) (by norm_num)).1

/-- Claim C6: calculate_progress always lies in [0,1], equals
clamp(calculate_efficiency/100, 0, 1), and is 1 whenever efficiency ≥ 100. -/
theorem c6_calculate_progress_clamp (l e : ℚ) :
    0 ≤ calculate_progress l e ∧ calculate_progress l e ≤ 1 ∧
    calculate_progress l e =
      min (max (calculate_efficiency (.val l) (.val e) / 100) 0) 1 ∧
    (100 ≤ calculate_efficiency (.val l) (.val e) →
      calculate_progress l e = 1) := by
  rw [calculate_efficiency_val_val]
  unfold calculate_progress
  by_cases he : e ≤ 0
  · have heff : (if l < 0 then (0:ℚ) else if e ≤ 0 then 0 else l / e * 100) = 0 := by
      split_ifs <;> rfl
    rw [if_pos he, heff]
    norm_num
  · by_cases hl : l < 0
    · rw [if_neg he, if_pos hl, if_pos hl]
      norm_num
    · have he' : 0 < e := not_le.mp he
      have hl' : 0 ≤ l := not_lt.mp hl
      rw [if_neg he, if_neg hl, if_neg hl, if_neg he]
      have hratio : l / e * 100 / 100 = l / e := by ring
      rw [hratio]
      have h0 : (0 : ℚ) ≤ l / e := by positivity
      refine ⟨le_min (le_max_right _ _) (by norm_num), min_le_right _ _, rfl, ?_⟩
      intro h100
      have h1 : (1 : ℚ) ≤ l / e := by nlinarith
      rw [max_eq_left h0, min_eq_right h1]

/-- Witness for C6 at logged = 12, estimated = 10 (efficiency 120 ≥ 100,
progress collapses to the full bar). -/
theorem c6_calculate_progress_clamp_witness :
    calculate_progress 12 10 =
      min (max (calculate_efficiency (.val 12) (.val 10) / 100) 0) 1 ∧
    calculate_progress 12 10 = 1 :=
  ⟨(c6_calculate_progress_clamp 12 10).2.2.1,
   (c6_calculate_progress_clamp 12 10).2.2.2 (by
      rw [calculate_efficiency_val_val]; norm_num)⟩

/-- Claim C8: calculate_duration fails exactly when end_time ≤ start_time
(including the zero-duration case), and otherwise returns the difference
expressed in hours. -/
theorem c8_calculate_duration (s e : ℚ) :
    (e ≤ s → calculate_duration s e = .error ERROR_MESSAGES_end_time_before_start) ∧
    (s < e → calculate_duration s e = .ok ((e - s) / 3600)) ∧
    ((∃ msg, calculate_duration s e = .error msg) ↔ e ≤ s) := by
  refine ⟨fun h => by unfold calculate_duration; rw [if_pos h],
          fun h => by unfold calculate_duration; rw [if_neg (not_le.mpr h)],
          ?_⟩
  constructor
  · rintro ⟨msg, hmsg⟩
    by_contra hc
    unfold calculate_duration at hmsg
    rw [if_neg hc] at hmsg
    exact Except.noConfusion hmsg
  · intro h
    exact ⟨_, by unfold calculate_duration; rw [if_pos h]⟩

/-- Witness for C8: duration from second 0 to second 12600 is 3.5 hours, and
the degenerate call with equal endpoints fails. -/
theorem c8_calculate_duration_witness :
    calculate_duration 0 12600 = .ok ((12600 - 0) / 3600) ∧
    calculate_duration 7 7 = .error ERROR_MESSAGES_end_time_before_start :=
  ⟨(c8_calculate_duration 0 12600).2.1 (by norm_num),
   (c8_calculate_duration 7 7).1 (by norm_num)⟩

/-! Embedding of calculate_statistics (src/utils/calculations.py lines
227-307).  The NumPy / SciPy primitives it calls are embedded over exact
rationals: np.mean, np.median (midpoint of the two central order statistics
for even length), np.std (population standard deviation, the square root of
the second central moment — a real number), np.min, np.max, np.ptp,
np.percentile (default linear interpolation between order statistics),
scipy.stats.skew (biased: m3 / m2^(3/2)) and scipy.stats.kurtosis (biased
Fisher: m4 / m2^2 - 3). -/

/-- Insert a value into an already ascending list, keeping it ascending. -/
def insertQ (x : ℚ) : List ℚ → List ℚ
  | [] => [x]
  | y :: ys => if x ≤ y then x :: y :: ys else y :: insertQ x ys

/-- Ascending sort of a rational list (np.sort on a 1-d array). -/
def sortQ : List ℚ → List ℚ
  | [] => []
  | x :: xs => insertQ x (sortQ xs)

/-- Embedding of np.percentile with the default linear interpolation method:
the p-th percentile sits at fractional position (n-1)·p/100 of the sorted
data and is interpolated linearly between the two neighbouring order
statistics. -/
def percentile (data : List ℚ) (p : ℚ) : ℚ :=
  let s := sortQ data
  let n := s.length
  if n = 0 then 0
  else
    let idx : ℚ := ((n : ℚ) - 1) * p / 100
    let i : ℕ := (⌊idx⌋).toNat
    let frac : ℚ := idx - ⌊idx⌋
    let lo := s.getD i 0
    let hi := s.getD (min (i + 1) (n - 1)) 0
    lo + (hi - lo) * frac

/-- Embedding of np.median: middle order statistic for odd length, midpoint
of the two middle order statistics for even length. -/
def npMedian (data : List ℚ) : ℚ :=
  let s := sortQ data
  let n := s.length
  if n = 0 then 0
  else if n % 2 = 1 then s.getD (n / 2) 0
  else (s.getD (n / 2 - 1) 0 + s.getD (n / 2) 0) / 2

/-- Embedding of np.min on a nonempty array (0 for the never-taken empty case). -/
def npMin : List ℚ → ℚ
  | [] => 0
  | x :: xs => xs.foldl min x

/-- Embedding of np.max on a nonempty array (0 for the never-taken empty case). -/
def npMax : List ℚ → ℚ
  | [] => 0
  | x :: xs => xs.foldl max x

/-- The k-th central moment Σ (x - mean)^k / n of a sample. -/
def centralMoment (data : List ℚ) (k : ℕ) : ℚ :=
  let n : ℚ := (data.length : ℚ)
  let mean := data.sum / n
  (data.map (fun x => (x - mean) ^ k)).sum / n

/-- The statistics record returned as a dict by calculate_statistics. -/
structure DescStats where
  count : ℕ
  mean : ℚ
  median : ℚ
  std : ℝ
  min : ℚ
  max : ℚ
  range : ℚ
  q1 : ℚ
  q3 : ℚ
  iqr : ℚ
  skewness : ℝ
  kurtosis : ℝ

/-- Embedding of calculate_statistics: an all-zero record for empty input;
otherwise count, mean, median, population std, min, max, range, quartiles by
linear interpolation, iqr, and — only when there are at least 3 samples —
the biased skewness and Fisher kurtosis, both 0 below that threshold. -/
noncomputable def calculate_statistics (data : List ℚ) : DescStats :=
  if data = [] then
    ⟨0, 0, 0, 0, 0, 0, 0, 0, 0, 0, 0, 0⟩
  else
    let q1 := percentile data 25
    let q3 := percentile data 75
    let m2 := centralMoment data 2
    let m3 := centralMoment data 3
    let m4 := centralMoment data 4
    let skewness : ℝ :=
      if 3 ≤ data.length then (m3 : ℝ) / Real.sqrt (((m2 : ℝ)) ^ 3) else 0
    let kurtosis : ℝ :=
      if 3 ≤ data.length then ((m4 : ℝ) / ((m2 : ℝ)) ^ 2) - 3 else 0
    ⟨data.length, data.sum / (data.length : ℚ), npMedian data,
     Real.sqrt (m2 : ℝ), npMin data, npMax data, npMax data - npMin data,
     q1, q3, q3 - q1, skewness, kurtosis⟩

/-- Claim C7: calculate_statistics of the empty list is the all-zero record
and never raises; calculate_statistics [5] has mean = median = min = max = 5
and std = skewness = kurtosis = 0; and for every sample list with fewer than
3 elements skewness and kurtosis are 0 rather than raising. -/
theorem c7_calculate_statistics (data : List ℚ) (h : data.length < 3) :
    (calculate_statistics data).skewness = 0 ∧
    (calculate_statistics data).kurtosis = 0 ∧
    calculate_statistics ([] : List ℚ) = ⟨0, 0, 0, 0, 0, 0, 0, 0, 0, 0, 0, 0⟩ ∧
    (calculate_statistics [(5 : ℚ)]).count = 1 ∧
    (calculate_statistics [(5 : ℚ)]).mean = 5 ∧
    (calculate_statistics [(5 : ℚ)]).median = 5 ∧
    (calculate_statistics [(5 : ℚ)]).min = 5 ∧
    (calculate_statistics [(5 : ℚ)]).max = 5 ∧
    (calculate_statistics [(5 : ℚ)]).std = 0 ∧
    (calculate_statistics [(5 : ℚ)]).skewness = 0 ∧
    (calculate_statistics [(5 : ℚ)]).kurtosis = 0 := by
  have hnil : calculate_statistics ([] : List ℚ) =
      ⟨0, 0, 0, 0, 0, 0, 0, 0, 0, 0, 0, 0⟩ := by
    unfold calculate_statistics
    rw [if_pos rfl]
  have hm2 : centralMoment [(5 : ℚ)] 2 = 0 := by
    unfold centralMoment
    norm_num
  have h5 : calculate_statistics [(5 : ℚ)] =
      ⟨1, 5, 5, 0, 5, 5, 0, 5, 5, 0, 0, 0⟩ := by
    unfold calculate_statistics
    rw [if_neg (by simp)]
    have hs : sortQ [(5 : ℚ)] = [5] := rfl
    have hq : ∀ p : ℚ, percentile [(5 : ℚ)] p = 5 := by
      intro p
      simp only [percentile, hs]
      norm_num [List.getD]
    have hmed : npMedian [(5 : ℚ)] = 5 := by
      simp only [npMedian, hs]
      norm_num [List.getD]
    simp only [hq, hmed, hm2]
    norm_num [npMin, npMax, Real.sqrt_zero]
  have hskew : (calculate_statistics data).skewness = 0 ∧
      (calculate_statistics data).kurtosis = 0 := by
    by_cases hE : data = []
    · subst hE
      rw [hnil]
      exact ⟨rfl, rfl⟩
    · unfold calculate_statistics
      rw [if_neg hE]
      have h3 : ¬ (3 ≤ data.length) := by omega
      refine ⟨?_, ?_⟩ <;> simp [h3]
  refine ⟨hskew.1, hskew.2, hnil, ?_, ?_, ?_, ?_, ?_, ?_, ?_, ?_⟩ <;>
    rw [h5]

/-- Witness for C7 at the empty sample list. -/
theorem c7_calculate_statistics_witness :
    (calculate_statistics ([] : List ℚ)).skewness = 0 ∧
    (calculate_statistics ([] : List ℚ)).kurtosis = 0 ∧
    calculate_statistics ([] : List ℚ) = ⟨0, 0, 0, 0, 0, 0, 0, 0, 0, 0, 0, 0⟩ ∧
    (calculate_statistics [(5 : ℚ)]).count = 1 ∧
    (calculate_statistics [(5 : ℚ)]).mean = 5 ∧
    (calculate_statistics [(5 : ℚ)]).median = 5 ∧
    (calculate_statistics [(5 : ℚ)]).min = 5 ∧
    (calculate_statistics [(5 : ℚ)]).max = 5 ∧
    (calculate_statistics [(5 : ℚ)]).std = 0 ∧
    (calculate_statistics [(5 : ℚ)]).skewness = 0 ∧
    (calculate_statistics [(5 : ℚ)]).kurtosis = 0 :=
  c7_calculate_statistics [] (by simp)

/-! Embedding of the record store (src/database.py).  The three sqlite
tables are embedded as in-memory lists plus the AUTOINCREMENT counters; the
settings table plays no role in the claims and is omitted.  The wall-clock
columns created_at / updated_at are not modelled (no claim mentions them);
row order models insertion (rowid) order.  SELECT ... WHERE id = ? followed
by fetchone is List.find?, UPDATE/DELETE ... WHERE is List.map / List.filter,
and cursor.rowcount > 0 is List.any. -/

/-- Embedding of Python str.strip() with no arguments: remove leading and
trailing whitespace characters.  Implemented structurally over the character
list so that it evaluates on literals. -/
def pyStrip (s : String) : String :=
  String.mk (((s.data.dropWhile Char.isWhitespace).reverse.dropWhile
    Char.isWhitespace).reverse)

/-- A row of the projects table (src/database.py lines 80-91). -/
structure Project where
  id : ℕ
  name : String
  description : String
  estimated_hours : ℚ
  category : String
  status : String
deriving DecidableEq

/-- A row of the activities table (src/database.py lines 94-105). -/
structure Activity where
  id : ℕ
  project_id : ℕ
  start_time : ℚ
  end_time : Option ℚ
  duration_hours : Option ℚ
  notes : String
deriving DecidableEq

/-- The database state: both tables plus the AUTOINCREMENT counters. -/
structure DB where
  projects : List Project
  activities : List Activity
  next_project_id : ℕ
  next_activity_id : ℕ
deriving DecidableEq

/-- A projects row enriched with COALESCE(SUM(a.duration_hours), 0), as
returned by get_project_by_id (src/database.py lines 233-254). -/
structure ProjectView where
  id : ℕ
  name : String
  description : String
  estimated_hours : ℚ
  category : String
  status : String
  total_logged_hours : ℚ
deriving DecidableEq

/-- An activities row joined with the owning project's name and category, as
returned by get_activity_by_id (src/database.py lines 457-476). -/
structure ActivityView where
  id : ℕ
  project_id : ℕ
  start_time : ℚ
  end_time : Option ℚ
  duration_hours : Option ℚ
  notes : String
  project_name : String
  project_category : String
deriving DecidableEq

/-- COALESCE(SUM(a.duration_hours), 0) over the activities of one project:
SQL SUM skips NULL rows, so each NULL duration contributes 0. -/
def total_logged_hours (db : DB) (pid : ℕ) : ℚ :=
  ((db.activities.filter (fun a => a.project_id == pid)).map
    (fun a => a.duration_hours.getD 0)).sum

/-- Embedding of create_project (src/database.py lines 139-180): rejects an
empty / whitespace-only name and a non-positive estimate, otherwise inserts
the row with the stripped name and the sqlite column default status
of active, returning the fresh id. -/
def create_project (db : DB) (name description : String) (estimated_hours : ℚ)
    (category : String) : Except String (DB × ℕ) :=
  if pyStrip name = "" then .error ERROR_MESSAGES_project_name_required
  else if estimated_hours ≤ 0 then .error ERROR_MESSAGES_estimated_hours_invalid
  else
    let row : Project :=
      { id := db.next_project_id, name := pyStrip name,
        description := description, estimated_hours := estimated_hours,
        category := category, status := "active" }
    let db2 : DB :=
      { db with projects := db.projects ++ [row],
                next_project_id := db.next_project_id + 1 }
    .ok (db2, db.next_project_id)

/-- Embedding of get_project_by_id (src/database.py lines 233-254). -/
def get_project_by_id (db : DB) (pid : ℕ) : Option ProjectView :=
  (db.projects.find? (fun p => p.id == pid)).map (fun p =>
    { id := p.id, name := p.name, description := p.description,
      estimated_hours := p.estimated_hours, category := p.category,
      status := p.status, total_logged_hours := total_logged_hours db pid })

/-- The row transformer of the UPDATE in update_project_status. -/
def setStatus (pid : ℕ) (status : String) (p : Project) : Project :=
  if p.id == pid then { p with status := status } else p

/-- Embedding of update_project_status (src/database.py lines 293-311): no
membership validation of the status string, stores it verbatim on the
matching row, returns rowcount > 0. -/
def update_project_status (db : DB) (pid : ℕ) (status : String) : DB × Bool :=
  ({ db with projects := db.projects.map (setStatus pid status) },
   db.projects.any (fun p => p.id == pid))

/-- Embedding of delete_project (src/database.py lines 314-334): deletes the
activities of the project, then the project, and returns whether the project
delete touched a row. -/
def delete_project (db : DB) (pid : ℕ) : DB × Bool :=
  ({ db with
      activities := db.activities.filter (fun a => !(a.project_id == pid)),
      projects := db.projects.filter (fun p => !(p.id == pid)) },
   db.projects.any (fun p => p.id == pid))

/-- Embedding of create_activity (src/database.py lines 339-386): with an
end time it must strictly exceed the start time or a ValueError is raised;
the duration in hours is computed at creation; without an end time the row
is stored ongoing with NULL end_time and duration. -/
def create_activity (db : DB) (project_id : ℕ) (start_time : ℚ)
    (end_time : Option ℚ) (notes : String) : Except String (DB × ℕ) :=
  match end_time with
  | some e =>
      if e ≤ start_time then .error ERROR_MESSAGES_end_time_before_start
      else
        let row : Activity :=
          { id := db.next_activity_id, project_id := project_id,
            start_time := start_time, end_time := some e,
            duration_hours := some ((e - start_time) / 3600), notes := notes }
        let db2 : DB :=
          { db with activities := db.activities ++ [row],
                    next_activity_id := db.next_activity_id + 1 }
        .ok (db2, db.next_activity_id)
  | none =>
      let row : Activity :=
        { id := db.next_activity_id, project_id := project_id,
          start_time := start_time, end_time := none,
          duration_hours := none, notes := notes }
      let db2 : DB :=
        { db with activities := db.activities ++ [row],
                  next_activity_id := db.next_activity_id + 1 }
      .ok (db2, db.next_activity_id)

/-- Embedding of get_activity_by_id (src/database.py lines 457-476): the
query joins projects, so a row is returned only when the owning project
still exists. -/
def get_activity_by_id (db : DB) (aid : ℕ) : Option ActivityView :=
  match db.activities.find? (fun a => a.id == aid) with
  | none => none
  | some a =>
    match db.projects.find? (fun p => p.id == a.project_id) with
    | none => none
    | some p =>
      some
        { id := a.id, project_id := a.project_id,
          start_time := a.start_time, end_time := a.end_time,
          duration_hours := a.duration_hours, notes := a.notes,
          project_name := p.name, project_category := p.category }

/-- The row transformer of UPDATE activities SET end_time, duration_hours
WHERE id = ? AND end_time IS NULL in end_activity. -/
def endUpdate (aid : ℕ) (t d : ℚ) (a : Activity) : Activity :=
  if a.id == aid && a.end_time.isNone then
    { a with end_time := some t, duration_hours := some d }
  else a

/-- Embedding of end_activity (src/database.py lines 479-530): fetches the
row, raises not-found when absent, raises already-ended when end_time is
set, raises on end_time ≤ start_time, otherwise stores the end time and the
duration in hours and returns rowcount > 0. -/
def end_activity (db : DB) (aid : ℕ) (end_time : ℚ) : Except String (DB × Bool) :=
  match db.activities.find? (fun a => a.id == aid) with
  | none => .error ERROR_MESSAGES_activity_not_found
  | some row =>
    match row.end_time with
    | some _ => .error ERROR_MESSAGES_activity_already_ended
    | none =>
      if end_time ≤ row.start_time then
        .error ERROR_MESSAGES_end_time_before_start
      else
        let upd := endUpdate aid end_time ((end_time - row.start_time) / 3600)
        let db2 : DB := { db with activities := db.activities.map upd }
        .ok (db2, db.activities.any (fun a => a.id == aid && a.end_time.isNone))

/-- The database state after calling end_activity under the get_connection
context manager: committed on success, rolled back (unchanged) when the
call raises. -/
def end_activity_run (db : DB) (aid : ℕ) (t : ℚ) : DB :=
  match end_activity db aid t with
  | .ok (db2, _) => db2
  | .error _ => db

/-- The database state after calling create_activity under the
get_connection context manager: committed on success, rolled back
(unchanged) when the call raises. -/
def create_activity_run (db : DB) (project_id : ℕ) (start_time : ℚ)
    (end_time : Option ℚ) (notes : String) : DB :=
  match create_activity db project_id start_time end_time notes with
  | .ok (db2, _) => db2
  | .error _ => db

/-- Well-formedness maintained by the sqlite schema on states reachable
through the UI: AUTOINCREMENT ids are below the next counters and unique,
and every activity references an existing project (referential integrity of
the project_id foreign key). -/
def DB.WF (db : DB) : Prop :=
  (∀ p ∈ db.projects, p.id < db.next_project_id) ∧
  (∀ a ∈ db.activities, a.id < db.next_activity_id) ∧
  (db.projects.map Project.id).Nodup ∧
  (db.activities.map Activity.id).Nodup ∧
  (∀ a ∈ db.activities, ∃ p ∈ db.projects, p.id = a.project_id)

/-! Validation constants and validate_project_name
(src/utils/validators.py lines 19-58), used to exhibit a valid project name
that create_project does not store verbatim. -/

def VALIDATION_RULES_project_name_min_length : ℕ := 3

def VALIDATION_RULES_project_name_max_length : ℕ := 100

/-- Embedding of validate_project_name: empty / whitespace-only names are
required-errors, then the stripped name must have between 3 and 100
characters. -/
def validate_project_name (name : String) : Bool × String :=
  if pyStrip name = "" then (false, ERROR_MESSAGES_project_name_required)
  else if (pyStrip name).length < VALIDATION_RULES_project_name_min_length then
    (false, ERROR_MESSAGES_project_name_too_short)
  else if (pyStrip name).length > VALIDATION_RULES_project_name_max_length then
    (false, ERROR_MESSAGES_project_name_too_long)
  else (true, "")

/-! Concrete sample states used by the witnesses. -/

def strSeismicQC : String := "Seismic QC"

def strSeismicQCpadded : String := " Seismic QC "

def strCategorySeismik : String := "Pengolahan Data Seismik"

def strEmpty : String := ""

def strArchived : String := "archived"

def sampleProject : Project :=
  { id := 1, name := "Seismic QC", description := "", estimated_hours := 10,
    category := "Pengolahan Data Seismik", status := "active" }

def endedActivity : Activity :=
  { id := 1, project_id := 1, start_time := 0, end_time := some 7200,
    duration_hours := some 2, notes := "" }

def ongoingActivity : Activity :=
  { id := 2, project_id := 1, start_time := 0, end_time := none,
    duration_hours := none, notes := "" }

def sampleDB : DB :=
  { projects := [sampleProject],
    activities := [endedActivity, ongoingActivity],
    next_project_id := 2, next_activity_id := 3 }

def emptyDB : DB :=
  { projects := [], activities := [], next_project_id := 1,
    next_activity_id := 1 }

/-- Helper: a pointwise-identity map over the members of a list is the
identity. -/
theorem list_map_eq_self {α : Type} {f : α → α} {l : List α}
    (h : ∀ x ∈ l, f x = x) : l.map f = l := by
  induction l with
  | nil => rfl
  | cons a t ih =>
    rw [List.map_cons, h a (by simp), ih (fun x hx => h x (by simp [hx]))]

/-- Claim C5: create_activity with a present end_time ≤ start_time raises a
validation error and stores nothing; with end_time > start_time it stores
the row with duration_hours = (end − start) in hours (exactly, hence within
any floating tolerance); with end_time absent it stores the row ongoing with
NULL end_time and NULL duration. -/
theorem c5_create_activity (db : DB) (pid : ℕ) (s : ℚ) (notes : String) :
    (∀ e : ℚ, e ≤ s →
      create_activity db pid s (some e) notes =
        .error ERROR_MESSAGES_end_time_before_start ∧
      create_activity_run db pid s (some e) notes = db) ∧
    (∀ e : ℚ, s < e →
      create_activity db pid s (some e) notes =
        .ok ({ db with
                activities := db.activities ++
                  [{ id := db.next_activity_id, project_id := pid,
                     start_time := s, end_time := some e,
                     duration_hours := some ((e - s) / 3600),
                     notes := notes }],
                next_activity_id := db.next_activity_id + 1 },
             db.next_activity_id)) ∧
    (create_activity db pid s none notes =
      .ok ({ db with
              activities := db.activities ++
                [{ id := db.next_activity_id, project_id := pid,
                   start_time := s, end_time := none,
                   duration_hours := none, notes := notes }],
              next_activity_id := db.next_activity_id + 1 },
           db.next_activity_id)) := by
  refine ⟨?_, ?_, rfl⟩
  · intro e h
    have herr : create_activity db pid s (some e) notes =
        .error ERROR_MESSAGES_end_time_before_start := by
      simp only [create_activity]
      rw [if_pos h]
    exact ⟨herr, by simp only [create_activity_run, herr]⟩
  · intro e h
    simp only [create_activity]
    rw [if_neg (not_le.mpr h)]

/-- Witness for C5 on the sample state: an end time equal to the start is
rejected and leaves the state unchanged, a later end time stores the exact
duration, and a missing end time stores an ongoing row. -/
theorem c5_create_activity_witness :
    (create_activity sampleDB 1 0 (some 0) strEmpty =
        .error ERROR_MESSAGES_end_time_before_start ∧
      create_activity_run sampleDB 1 0 (some 0) strEmpty = sampleDB) ∧
    create_activity sampleDB 1 0 (some 3600) strEmpty =
      .ok ({ sampleDB with
              activities := sampleDB.activities ++
                [{ id := sampleDB.next_activity_id, project_id := 1,
                   start_time := 0, end_time := some 3600,
                   duration_hours := some ((3600 - 0) / 3600),
                   notes := strEmpty }],
              next_activity_id := sampleDB.next_activity_id + 1 },
           sampleDB.next_activity_id) ∧
    create_activity sampleDB 1 0 none strEmpty =
      .ok ({ sampleDB with
              activities := sampleDB.activities ++
                [{ id := sampleDB.next_activity_id, project_id := 1,
                   start_time := 0, end_time := none,
                   duration_hours := none, notes := strEmpty }],
              next_activity_id := sampleDB.next_activity_id + 1 },
           sampleDB.next_activity_id) :=
  ⟨(c5_create_activity sampleDB 1 0 strEmpty).1 0 le_rfl,
   (c5_create_activity sampleDB 1 0 strEmpty).2.1 3600 (by decide),
   (c5_create_activity sampleDB 1 0 strEmpty).2.2⟩

/-- Claim C10: update_project_status performs no membership validation on the
status string — for every string s and existing project id it reports
success and stores s verbatim (the function is total, so no validation error
is possible); only a nonexistent id makes it report failure, leaving the
state unchanged. -/
theorem c10_update_project_status (db : DB) (pid : ℕ) (s : String) :
    ((∃ p ∈ db.projects, p.id = pid) →
      (update_project_status db pid s).2 = true ∧
      ∃ v, get_project_by_id (update_project_status db pid s).1 pid = some v ∧
        v.status = s) ∧
    ((¬ ∃ p ∈ db.projects, p.id = pid) →
      (update_project_status db pid s).2 = false ∧
      (update_project_status db pid s).1 = db) := by
  constructor
  · rintro ⟨p0, hp0, hpid⟩
    constructor
    · simp only [update_project_status]
      exact List.any_eq_true.mpr ⟨p0, hp0, by simp [hpid]⟩
    · have hpres : ∀ x : Project,
          ((setStatus pid s x).id == pid) = (x.id == pid) := by
        intro x
        unfold setStatus
        split <;> rfl
      have hsome : (db.projects.find? (fun p => p.id == pid)).isSome := by
        rw [List.find?_isSome]
        exact ⟨p0, hp0, by simp [hpid]⟩
      obtain ⟨q, hq⟩ := Option.isSome_iff_exists.mp hsome
      have hqid : (q.id == pid) = true := by
        simpa using List.find?_some hq
      simp only [update_project_status, get_project_by_id]
      rw [List.find?_map,
        show ((fun p : Project => p.id == pid) ∘ setStatus pid s) =
          (fun p : Project => p.id == pid) from funext hpres, hq]
      refine ⟨_, rfl, ?_⟩
      show (setStatus pid s q).status = s
      unfold setStatus
      rw [if_pos hqid]
  · intro h
    have hall : ∀ x ∈ db.projects, ¬ (x.id == pid) = true := by
      intro x hx hbeq
      exact h ⟨x, hx, by simpa using hbeq⟩
    constructor
    · simp only [update_project_status]
      exact List.any_eq_false.mpr hall
    · simp only [update_project_status]
      have hmap : db.projects.map (setStatus pid s) = db.projects := by
        apply list_map_eq_self
        intro x hx
        unfold setStatus
        rw [if_neg (hall x hx)]
      rw [hmap]

/-- Witness for C10 on the sample state: the out-of-vocabulary status
"archived" is stored verbatim on project 1 with success reported, and a
nonexistent project id reports failure and changes nothing. -/
theorem c10_update_project_status_witness :
    ((update_project_status sampleDB 1 strArchived).2 = true ∧
      ∃ v, get_project_by_id (update_project_status sampleDB 1 strArchived).1 1 =
          some v ∧ v.status = strArchived) ∧
    ((update_project_status sampleDB 99 strArchived).2 = false ∧
      (update_project_status sampleDB 99 strArchived).1 = sampleDB) :=
  ⟨(c10_update_project_status sampleDB 1 strArchived).1
      ⟨sampleProject, by decide, by decide⟩,
   (c10_update_project_status sampleDB 99 strArchived).2 (by decide)⟩

instance (db : DB) : Decidable db.WF := by
  unfold DB.WF
  infer_instance

/-- Claim C3: end_activity on an activity whose end_time is already set
raises the already-ended state-conflict error and the stored state — hence
the row's end_time and duration_hours — is unchanged; after a successful
end_activity, a second call on the same id fails with the same already-ended
error rather than silently succeeding (so it succeeds at most once); and on
a nonexistent id it raises the not-found error, also leaving the state
unchanged. -/
theorem c3_end_activity (db : DB) (aid : ℕ) (t : ℚ) :
    (∀ a, db.activities.find? (fun x => x.id == aid) = some a →
      a.end_time.isSome = true →
      end_activity db aid t = .error ERROR_MESSAGES_activity_already_ended ∧
      end_activity_run db aid t = db) ∧
    (db.activities.find? (fun x => x.id == aid) = none →
      end_activity db aid t = .error ERROR_MESSAGES_activity_not_found ∧
      end_activity_run db aid t = db) ∧
    (∀ db2 b t2, end_activity db aid t = .ok (db2, b) →
      end_activity db2 aid t2 = .error ERROR_MESSAGES_activity_already_ended) := by
  refine ⟨?_, ?_, ?_⟩
  · intro a ha hsome
    obtain ⟨v, hv⟩ := Option.isSome_iff_exists.mp hsome
    have herr : end_activity db aid t =
        .error ERROR_MESSAGES_activity_already_ended := by
      simp only [end_activity, ha, hv]
    exact ⟨herr, by simp only [end_activity_run, herr]⟩
  · intro h
    have herr : end_activity db aid t =
        .error ERROR_MESSAGES_activity_not_found := by
      simp only [end_activity, h]
    exact ⟨herr, by simp only [end_activity_run, herr]⟩
  · intro db2 b t2 hok
    cases hfind : db.activities.find? (fun x => x.id == aid) with
    | none =>
      simp only [end_activity, hfind] at hok
      exact Except.noConfusion hok
    | some row =>
      cases hrow : row.end_time with
      | some v =>
        simp only [end_activity, hfind, hrow] at hok
        exact Except.noConfusion hok
      | none =>
        by_cases hle : t ≤ row.start_time
        · simp only [end_activity, hfind, hrow, if_pos hle] at hok
          exact Except.noConfusion hok
        · simp only [end_activity, hfind, hrow, if_neg hle] at hok
          rw [Except.ok.injEq, Prod.mk.injEq] at hok
          obtain ⟨hdb2, -⟩ := hok
          subst hdb2
          have hrowid : (row.id == aid) = true := by
            simpa using List.find?_some hfind
          have hpres : ∀ x : Activity,
              ((endUpdate aid t ((t - row.start_time) / 3600) x).id == aid) =
                (x.id == aid) := by
            intro x
            unfold endUpdate
            split <;> rfl
          have hupd : endUpdate aid t ((t - row.start_time) / 3600) row =
              { row with end_time := some t,
                         duration_hours := some ((t - row.start_time) / 3600) } := by
            unfold endUpdate
            rw [if_pos (by simp [hrowid, hrow])]
          simp only [end_activity]
          rw [List.find?_map,
            show ((fun x : Activity => x.id == aid) ∘
                endUpdate aid t ((t - row.start_time) / 3600)) =
              (fun x : Activity => x.id == aid) from funext hpres,
            hfind, Option.map_some', hupd]

/-- The committed state after ending the sample ongoing activity (id 2) at
second 3600, used by the C3 witness to exhibit the failing second call. -/
def sampleDBEnded : DB := end_activity_run sampleDB 2 3600

/-- Witness for C3 on the sample state: ending the already-ended activity 1
raises the already-ended error and changes nothing, ending the nonexistent
activity 99 raises not-found and changes nothing, and after successfully
ending activity 2 a second end call on it raises already-ended. -/
theorem c3_end_activity_witness :
    (end_activity sampleDB 1 9999 =
        .error ERROR_MESSAGES_activity_already_ended ∧
      end_activity_run sampleDB 1 9999 = sampleDB) ∧
    (end_activity sampleDB 99 9999 =
        .error ERROR_MESSAGES_activity_not_found ∧
      end_activity_run sampleDB 99 9999 = sampleDB) ∧
    end_activity sampleDBEnded 2 5000 =
      .error ERROR_MESSAGES_activity_already_ended :=
  ⟨(c3_end_activity sampleDB 1 9999).1 endedActivity rfl rfl,
   (c3_end_activity sampleDB 99 9999).2.1 rfl,
   (c3_end_activity sampleDB 2 3600).2.2 sampleDBEnded true 5000 rfl⟩

/-- Claim C4: delete_project removes the project together with every
activity owned by it — afterwards get_activity_by_id on any such activity id
returns none and the project row is gone — while delete_project on a
nonexistent project id reports failure and leaves the store unchanged. -/
theorem c4_delete_project (db : DB) (hWF : db.WF) (pid : ℕ) :
    (∀ a ∈ db.activities, a.project_id = pid →
      get_activity_by_id (delete_project db pid).1 a.id = none) ∧
    ((delete_project db pid).1.projects.find? (fun p => p.id == pid) = none) ∧
    ((¬ ∃ p ∈ db.projects, p.id = pid) →
      (delete_project db pid).2 = false ∧ (delete_project db pid).1 = db) := by
  obtain ⟨hpn, han, hpnd, hand, hfk⟩ := hWF
  refine ⟨?_, ?_, ?_⟩
  · intro a ha hapid
    simp only [delete_project, get_activity_by_id]
    have hnone : (db.activities.filter
        (fun x => !(x.project_id == pid))).find? (fun x => x.id == a.id) = none := by
      rw [List.find?_eq_none]
      intro b hb hbeq
      rw [List.mem_filter] at hb
      obtain ⟨hbmem, hbp⟩ := hb
      have hbid : b.id = a.id := by simpa using hbeq
      have hba : b = a := List.inj_on_of_nodup_map hand hbmem ha hbid
      subst hba
      simp [hapid] at hbp
    rw [hnone]
  · simp only [delete_project]
    rw [List.find?_eq_none]
    intro x hx hbeq
    rw [List.mem_filter] at hx
    obtain ⟨-, hxp⟩ := hx
    simp [hbeq] at hxp
  · intro h
    have hall : ∀ x ∈ db.projects, ¬ (x.id == pid) = true := by
      intro x hx hbeq
      exact h ⟨x, hx, by simpa using hbeq⟩
    refine ⟨?_, ?_⟩
    · simp only [delete_project]
      exact List.any_eq_false.mpr hall
    · simp only [delete_project]
      have h1 : db.projects.filter (fun p => !(p.id == pid)) = db.projects := by
        rw [List.filter_eq_self]
        intro x hx
        cases hbe : (x.id == pid) with
        | false => rfl
        | true => exact absurd hbe (hall x hx)
      have h2 : db.activities.filter
          (fun a => !(a.project_id == pid)) = db.activities := by
        rw [List.filter_eq_self]
        intro a ha
        obtain ⟨p, hp, hpe⟩ := hfk a ha
        cases hbe : (a.project_id == pid) with
        | false => rfl
        | true =>
          exfalso
          refine h ⟨p, hp, ?_⟩
          rw [hpe]
          simpa using hbe
      rw [h1, h2]

/-- Witness for C4 on the sample state: deleting project 1 makes both of its
activity ids unresolvable and removes the project row, and deleting the
nonexistent project 99 reports failure and changes nothing. -/
theorem c4_delete_project_witness :
    get_activity_by_id (delete_project sampleDB 1).1 1 = none ∧
    get_activity_by_id (delete_project sampleDB 1).1 2 = none ∧
    (delete_project sampleDB 1).1.projects.find? (fun p => p.id == 1) = none ∧
    (delete_project sampleDB 99).2 = false ∧
    (delete_project sampleDB 99).1 = sampleDB :=
  ⟨(c4_delete_project sampleDB (by decide) 1).1 endedActivity (by decide) rfl,
   (c4_delete_project sampleDB (by decide) 1).1 ongoingActivity (by decide) rfl,
   (c4_delete_project sampleDB (by decide) 1).2.1,
   ((c4_delete_project sampleDB (by decide) 99).2.2 (by decide)).1,
   ((c4_delete_project sampleDB (by decide) 99).2.2 (by decide)).2⟩

/-- The committed state after creating one project from the padded but valid
name " Seismic QC " in the empty store, used by the C9 counterexample. -/
def c9CounterDB : DB :=
  match create_project emptyDB strSeismicQCpadded strEmpty 10 strCategorySeismik with
  | .ok (d, _) => d
  | .error _ => emptyDB

/-- Counterexample to C9 as stated: the name " Seismic QC " is valid for
validate_project_name and the estimate 10 is positive, yet after
create_project the record read back by get_project_by_id carries the
stripped name "Seismic QC", not the same name that was passed in. -/
theorem c9_create_project_counterexample :
    (validate_project_name strSeismicQCpadded).1 = true ∧
    (0 : ℚ) < 10 ∧
    (get_project_by_id c9CounterDB 1).map ProjectView.name = some strSeismicQC ∧
    ¬ strSeismicQC = strSeismicQCpadded := by
  refine ⟨by decide, by decide, ?_, by decide⟩
  rfl

/-- Claim C9 as amended: for every name that is non-empty after stripping,
positive estimated hours and category, create_project returns the fresh id
under which get_project_by_id returns a record carrying the stripped input
name (hence the same name whenever the input carries no surrounding
whitespace), the same estimated_hours and category, total_logged_hours = 0
and status active. -/
theorem c9_create_project_roundtrip (db : DB) (hWF : db.WF)
    (name description : String) (hours : ℚ) (category : String)
    (hname : ¬ pyStrip name = "") (hh : 0 < hours) :
    ∃ db2,
      create_project db name description hours category =
        .ok (db2, db.next_project_id) ∧
      get_project_by_id db2 db.next_project_id = some
        { id := db.next_project_id, name := pyStrip name,
          description := description, estimated_hours := hours,
          category := category, status := "active",
          total_logged_hours := 0 } := by
  obtain ⟨hpn, han, hpnd, hand, hfk⟩ := hWF
  simp only [create_project]
  rw [if_neg hname, if_neg (not_le.mpr hh)]
  refine ⟨_, rfl, ?_⟩
  simp only [get_project_by_id]
  rw [List.find?_append]
  have hnone : db.projects.find?
      (fun p => p.id == db.next_project_id) = none := by
    rw [List.find?_eq_none]
    intro x hx hbeq
    have hlt := hpn x hx
    have hxid : x.id = db.next_project_id := by simpa using hbeq
    omega
  rw [hnone, Option.none_or, List.find?_cons_of_pos _ (by simp),
    Option.map_some']
  have htl : ∀ dbx : DB, dbx.activities = db.activities →
      total_logged_hours dbx db.next_project_id = 0 := by
    intro dbx hact
    unfold total_logged_hours
    rw [hact]
    have hfil : db.activities.filter
        (fun a => a.project_id == db.next_project_id) = [] := by
      rw [List.filter_eq_nil_iff]
      intro a ha hbeq
      obtain ⟨p, hp, hpe⟩ := hfk a ha
      have h1 := hpn p hp
      have h2 : a.project_id = db.next_project_id := by simpa using hbeq
      omega
    rw [hfil]
    rfl
  simp only [htl]

/-- Witness for the amended C9 at the empty store with an already-stripped
name: the stored and returned record carries exactly the input fields. -/
theorem c9_create_project_roundtrip_witness :
    ∃ db2,
      create_project emptyDB strSeismicQC strEmpty 10 strCategorySeismik =
        .ok (db2, emptyDB.next_project_id) ∧
      get_project_by_id db2 emptyDB.next_project_id = some
        { id := emptyDB.next_project_id, name := pyStrip strSeismicQC,
          description := strEmpty, estimated_hours := 10,
          category := strCategorySeismik, status := "active",
          total_logged_hours := 0 } :=
  c9_create_project_roundtrip emptyDB (by decide) strSeismicQC strEmpty 10
    strCategorySeismik (by decide) (by decide)

end Logbook
